import Mathlib

/-!
# Verification of the Windows shim of `flutter_p2p_connection`

Shallow embedding of the Windows platform code of the plugin:
`flutter_p2p_connection_plugin.cpp` (registration, method-call dispatch,
COM apartment lifetime), `constants.h` (channel names) and `utils.h`
(UTF-8 / UTF-16 string conversion helpers).

Strings crossing the channel are modelled at the representation the C++
code uses: `std::string` as a list of UTF-8 code units (bytes, `Nat`)
and `std::wstring` as a list of UTF-16 code units (`Nat`).
-/

namespace FlutterP2p

/-! ## UTF-8 / UTF-16 codecs

`utils.h` converts with the Win32 routines `MultiByteToWideChar` and
`WideCharToMultiByte` under code page `CP_UTF8` and flag `0`: valid
sequences are transcoded, invalid sequences are replaced by U+FFFD.
The codecs below model those OS routines at the code-unit level. -/

/-- A Unicode scalar value: a code point that is not a surrogate. -/
def IsScalar (c : Nat) : Prop :=
  c < 0x110000 ∧ (c < 0xD800 ∨ 0xE000 ≤ c)

instance (c : Nat) : Decidable (IsScalar c) := by
  unfold IsScalar; infer_instance

/-- UTF-8 encoding of one Unicode scalar value, as a list of bytes. -/
def utf8EncodeChar (c : Nat) : List Nat :=
  if c < 0x80 then [c]
  else if c < 0x800 then [0xC0 + c / 64, 0x80 + c % 64]
  else if c < 0x10000 then
    [0xE0 + c / 4096, 0x80 + (c / 64) % 64, 0x80 + c % 64]
  else
    [0xF0 + c / 262144, 0x80 + (c / 4096) % 64, 0x80 + (c / 64) % 64,
     0x80 + c % 64]

/-- UTF-8 encoding of a sequence of Unicode scalar values. -/
def utf8Encode : List Nat → List Nat
  | [] => []
  | c :: cs => utf8EncodeChar c ++ utf8Encode cs

/-- UTF-16 encoding of one Unicode scalar value, as a list of 16-bit
code units (a surrogate pair above U+FFFF). -/
def utf16EncodeChar (c : Nat) : List Nat :=
  if c < 0x10000 then [c]
  else [0xD800 + (c - 0x10000) / 0x400, 0xDC00 + (c - 0x10000) % 0x400]

/-- UTF-16 encoding of a sequence of Unicode scalar values. -/
def utf16Encode : List Nat → List Nat
  | [] => []
  | c :: cs => utf16EncodeChar c ++ utf16Encode cs

/-- UTF-8 decoding to a sequence of code points, replacing invalid
sequences (stray continuations, overlong forms, surrogates, values past
U+10FFFF, truncated tails) by U+FFFD, as `MultiByteToWideChar` with
flag `0` does. -/
def utf8Decode : List Nat → List Nat
  | [] => []
  | b1 :: t1 =>
    if b1 < 0x80 then b1 :: utf8Decode t1
    else if b1 < 0xC2 then 0xFFFD :: utf8Decode t1
    else if b1 < 0xE0 then
      match t1 with
      | [] => [0xFFFD]
      | b2 :: t2 =>
        if 0x80 ≤ b2 ∧ b2 < 0xC0 then
          ((b1 - 0xC0) * 64 + (b2 - 0x80)) :: utf8Decode t2
        else 0xFFFD :: utf8Decode (b2 :: t2)
    else if b1 < 0xF0 then
      match t1 with
      | b2 :: b3 :: t3 =>
        if (0x80 ≤ b2 ∧ b2 < 0xC0) ∧ (0x80 ≤ b3 ∧ b3 < 0xC0) then
          if 0x800 ≤ (b1 - 0xE0) * 4096 + (b2 - 0x80) * 64 + (b3 - 0x80) ∧
              ((b1 - 0xE0) * 4096 + (b2 - 0x80) * 64 + (b3 - 0x80) < 0xD800 ∨
                0xE000 ≤ (b1 - 0xE0) * 4096 + (b2 - 0x80) * 64 + (b3 - 0x80)) then
            ((b1 - 0xE0) * 4096 + (b2 - 0x80) * 64 + (b3 - 0x80)) :: utf8Decode t3
          else 0xFFFD :: utf8Decode t3
        else 0xFFFD :: utf8Decode (b2 :: b3 :: t3)
      | _ => [0xFFFD]
    else if b1 < 0xF5 then
      match t1 with
      | b2 :: b3 :: b4 :: t4 =>
        if (0x80 ≤ b2 ∧ b2 < 0xC0) ∧ (0x80 ≤ b3 ∧ b3 < 0xC0) ∧
            (0x80 ≤ b4 ∧ b4 < 0xC0) then
          if 0x10000 ≤ (b1 - 0xF0) * 262144 + (b2 - 0x80) * 4096 +
                (b3 - 0x80) * 64 + (b4 - 0x80) ∧
              (b1 - 0xF0) * 262144 + (b2 - 0x80) * 4096 +
                (b3 - 0x80) * 64 + (b4 - 0x80) < 0x110000 then
            ((b1 - 0xF0) * 262144 + (b2 - 0x80) * 4096 +
              (b3 - 0x80) * 64 + (b4 - 0x80)) :: utf8Decode t4
          else 0xFFFD :: utf8Decode t4
        else 0xFFFD :: utf8Decode (b2 :: b3 :: b4 :: t4)
      | _ => [0xFFFD]
    else 0xFFFD :: utf8Decode t1

/-- UTF-16 decoding to a sequence of code points, replacing unpaired
surrogates by U+FFFD, as `WideCharToMultiByte` with flag `0` does. -/
def utf16Decode : List Nat → List Nat
  | [] => []
  | u1 :: t1 =>
    if u1 < 0xD800 ∨ 0xE000 ≤ u1 then u1 :: utf16Decode t1
    else if u1 < 0xDC00 then
      match t1 with
      | [] => [0xFFFD]
      | u2 :: t2 =>
        if 0xDC00 ≤ u2 ∧ u2 < 0xE000 then
          (0x10000 + (u1 - 0xD800) * 0x400 + (u2 - 0xDC00)) :: utf16Decode t2
        else 0xFFFD :: utf16Decode (u2 :: t2)
    else 0xFFFD :: utf16Decode t1

namespace utils

/-- Model of `utils::string_to_wstring`: converts a UTF-8 `std::string` to a
UTF-16 `std::wstring`. Empty input returns the empty wstring directly;
otherwise the conversion is delegated to `MultiByteToWideChar(CP_UTF8, 0, ...)`,
modelled as UTF-8 decode followed by UTF-16 encode. -/
def string_to_wstring (str : List Nat) : List Nat :=
  if str = [] then [] else utf16Encode (utf8Decode str)

/-- Number of calls `utils::string_to_wstring` makes to the OS
conversion routine `MultiByteToWideChar`: zero on the early-return
empty branch, two otherwise (one sizing call, one converting call). -/
def string_to_wstring_osCalls (str : List Nat) : Nat :=
  if str = [] then 0 else 2

/-- Model of `utils::wstring_to_string`: converts a UTF-16 `std::wstring` to a
UTF-8 `std::string`. Empty input returns the empty string directly;
otherwise the conversion is delegated to `WideCharToMultiByte(CP_UTF8, 0, ...)`,
modelled as UTF-16 decode followed by UTF-8 encode. -/
def wstring_to_string (wstr : List Nat) : List Nat :=
  if wstr = [] then [] else utf8Encode (utf16Decode wstr)

/-- Number of calls `utils::wstring_to_string` makes to the OS
conversion routine `WideCharToMultiByte`: zero on the early-return
empty branch, two otherwise (one sizing call, one converting call). -/
def wstring_to_string_osCalls (wstr : List Nat) : Nat :=
  if wstr = [] then 0 else 2

end utils

/-! ## Constants (`constants.h`) -/

namespace Constants

def METHOD_CHANNEL_NAME : String := "flutter_p2p_connection"

end Constants

/-! ## The dispatcher (`flutter_p2p_connection_plugin.cpp`) -/

/-- The OS version record filled in by `RtlGetVersion`
(`OSVERSIONINFOEXW`); only the three fields the plugin reads. -/
structure OSVERSIONINFOEXW where
  dwMajorVersion : Nat
  dwMinorVersion : Nat
  dwBuildNumber : Nat
  deriving DecidableEq

/-- The host OS state the dispatcher consults: the `NTSTATUS` value
`RtlGetVersion` returns (`0` is success) and the version record it
fills in. -/
structure OsEnv where
  rtlStatus : Int
  osInfo : OSVERSIONINFOEXW
  deriving DecidableEq

/-- Model of `flutter::EncodableValue`, restricted to the shapes this plugin
produces or receives; strings carry their UTF-8 bytes. -/
inductive EncodableValue where
  | null
  | str (bytes : List Nat)
  deriving DecidableEq

/-- A method call arriving on the channel: a method name and opaque
arguments. -/
structure MethodCall where
  method_name : String
  arguments : EncodableValue
  deriving DecidableEq

/-- One response sent through the `flutter::MethodResult` object. -/
inductive MethodResult where
  | Success (value : EncodableValue)
  | Error (error_code : String) (error_message : String)
  | NotImplemented
  deriving DecidableEq

/-- Code units of a Lean string literal (used for the ASCII literals
the C++ code embeds). -/
def asciiUnits (s : String) : List Nat :=
  s.data.map Char.toNat

/-- The UTF-16 contents of the `wstringstream` built by the
`getPlatformVersion` branch:
`L"Windows " << major << L"." << minor << L" Build " << build`,
each `DWORD` printed in decimal. -/
def versionWString (info : OSVERSIONINFOEXW) : List Nat :=
  asciiUnits ("Windows " ++ Nat.repr info.dwMajorVersion ++ "." ++
    Nat.repr info.dwMinorVersion ++ " Build " ++ Nat.repr info.dwBuildNumber)

/-- Model of `FlutterP2pConnectionPlugin::HandleMethodCall`, written as the list
of responses it sends on the `result` object (each `result->Success`,
`result->Error` or `result->NotImplemented` call appends one entry):

* `"getPlatformVersion"` with `RtlGetVersion` returning `0`: success
  carrying `utils::wstring_to_string` of the formatted version wstring;
* `"getPlatformVersion"` with a non-zero status: the `VERSION_ERROR`
  error;
* any other method name: not-implemented. -/
def HandleMethodCall (env : OsEnv) (method_name : String)
    (_arguments : EncodableValue) : List MethodResult :=
  if method_name = "getPlatformVersion" then
    if env.rtlStatus = 0 then
      [MethodResult.Success (EncodableValue.str
        (utils.wstring_to_string (versionWString env.osInfo)))]
    else
      [MethodResult.Error "VERSION_ERROR" "Failed to get Windows version."]
  else
    [MethodResult.NotImplemented]

/-! ## Plugin state and call sequences

The plugin object holds only the registrar pointer (`registrar_`);
`HandleMethodCall` neither reads nor writes any member, so a dispatch
step returns the member state unchanged. -/

/-- The data members of `FlutterP2pConnectionPlugin`: only the stored
registrar pointer (modelled as an opaque identifier). The manager
members are commented out in the source. -/
structure PluginState where
  registrar_ : Nat
  deriving DecidableEq

/-- One dispatch step: the responses sent and the plugin state after
the call. `HandleMethodCall` touches no member, so the state component
is the input state. -/
def dispatchStep (env : OsEnv) (st : PluginState) (call : MethodCall) :
    List MethodResult × PluginState :=
  (HandleMethodCall env call.method_name call.arguments, st)

/-- Run a sequence of method calls against a fixed OS state, threading
the plugin state through; returns each call's response list and the
final plugin state. -/
def runCalls (env : OsEnv) (st : PluginState) :
    List MethodCall → List (List MethodResult) × PluginState
  | [] => ([], st)
  | c :: cs =>
    let step := dispatchStep env st c
    let rest := runCalls env step.2 cs
    (step.1 :: rest.1, rest.2)

/-! ## COM apartment lifetime (`winrt::init_apartment` / `winrt::uninit_apartment`) -/

/-- An acquisition or release of the process-wide COM/WinRT apartment. -/
inductive ApartmentEvent where
  | init
  | uninit
  deriving DecidableEq

/-- Apartment events performed by the plugin constructor: exactly the
one `winrt::init_apartment()` call. -/
def constructorApartmentEvents : List ApartmentEvent :=
  [ApartmentEvent.init]

/-- Apartment events performed by the plugin destructor: exactly the
one `winrt::uninit_apartment()` call. -/
def destructorApartmentEvents : List ApartmentEvent :=
  [ApartmentEvent.uninit]

/-- Apartment events performed by `HandleMethodCall`: none, on every
branch of the dispatcher. -/
def handleMethodCallApartmentEvents (_env : OsEnv) (_call : MethodCall) :
    List ApartmentEvent :=
  []

/-- The apartment events of one whole plugin lifetime: construction,
then any sequence of dispatched calls, then destruction. -/
def lifetimeApartmentEvents (env : OsEnv) (calls : List MethodCall) :
    List ApartmentEvent :=
  constructorApartmentEvents ++
    (calls.map (handleMethodCallApartmentEvents env)).flatten ++
    destructorApartmentEvents

/-! ## Registration (`RegisterWithRegistrar`) -/

/-- What `FlutterP2pConnectionPlugin::RegisterWithRegistrar` builds:
one plugin instance (`std::make_unique<FlutterP2pConnectionPlugin>`),
one method channel (`std::make_unique<flutter::MethodChannel<...>>`)
bound to `Constants::METHOD_CHANNEL_NAME`, and the handler lambda
installed with `SetMethodCallHandler`, which forwards the incoming
call unchanged to the plugin's `HandleMethodCall`. -/
structure RegistrationOutcome where
  plugins_constructed : Nat
  channels_constructed : Nat
  channel_name : String
  handler : OsEnv → MethodCall → List MethodResult

/-- Model of `FlutterP2pConnectionPlugin::RegisterWithRegistrar`. -/
def RegisterWithRegistrar : RegistrationOutcome where
  plugins_constructed := 1
  channels_constructed := 1
  channel_name := Constants.METHOD_CHANNEL_NAME
  handler := fun env call =>
    HandleMethodCall env call.method_name call.arguments

/-! ## Specification-side predicates -/

/-- The spec's version-string pattern
`"<word> <int>.<int> Build <int>"`: a nonempty alphabetic word, a
space, a decimal integer, a dot, a decimal integer, the literal
`" Build "`, a decimal integer, as UTF-8 bytes. -/
def matchesVersionPattern (bytes : List Nat) : Prop :=
  ∃ (word : String) (maj minr bld : Nat),
    word ≠ "" ∧ (∀ c ∈ word.data, c.isAlpha) ∧
    bytes = asciiUnits (word ++ " " ++ Nat.repr maj ++ "." ++
      Nat.repr minr ++ " Build " ++ Nat.repr bld)

/-- Validity predicate: `s` is valid UTF-8, i.e. it is the UTF-8 encoding of some sequence of
Unicode scalar values. -/
def IsUtf8Encoding (s : List Nat) : Prop :=
  ∃ cs : List Nat, (∀ c ∈ cs, IsScalar c) ∧ s = utf8Encode cs

/-! ## Helper lemmas: ASCII data -/

theorem digitChar_ascii (m : Nat) : (Nat.digitChar m).toNat < 128 := by
  by_cases h : m < 17
  · interval_cases m <;> decide
  · unfold Nat.digitChar
    repeat rw [if_neg (by omega)]
    decide

theorem toDigitsCore_ascii (fuel n : Nat) (acc : List Char)
    (hacc : ∀ ch ∈ acc, ch.toNat < 128) :
    ∀ ch ∈ Nat.toDigitsCore 10 fuel n acc, ch.toNat < 128 := by
  induction fuel generalizing n acc with
  | zero => exact hacc
  | succ fuel ih =>
    unfold Nat.toDigitsCore
    simp only []
    split
    · intro ch hch
      rcases List.mem_cons.mp hch with h | h
      · subst h; exact digitChar_ascii _
      · exact hacc _ h
    · exact ih _ _ (by
        intro ch hch
        rcases List.mem_cons.mp hch with h | h
        · subst h; exact digitChar_ascii _
        · exact hacc _ h)

theorem repr_data_ascii (n : Nat) : ∀ ch ∈ (Nat.repr n).data, ch.toNat < 128 :=
  toDigitsCore_ascii (n + 1) n [] (by intro ch hch; cases hch)

theorem versionWString_ascii (info : OSVERSIONINFOEXW) :
    ∀ x ∈ versionWString info, x < 128 := by
  intro x hx
  unfold versionWString asciiUnits at hx
  rcases List.mem_map.mp hx with ⟨ch, hch, rfl⟩
  simp only [String.data_append] at hch
  rcases List.mem_append.mp hch with hch | hch
  · rcases List.mem_append.mp hch with hch | hch
    · rcases List.mem_append.mp hch with hch | hch
      · rcases List.mem_append.mp hch with hch | hch
        · rcases List.mem_append.mp hch with hch | hch
          · exact (by decide : ∀ c ∈ "Windows ".data, c.toNat < 128) _ hch
          · exact repr_data_ascii _ _ hch
        · exact (by decide : ∀ c ∈ ".".data, c.toNat < 128) _ hch
      · exact repr_data_ascii _ _ hch
    · exact (by decide : ∀ c ∈ " Build ".data, c.toNat < 128) _ hch
  · exact repr_data_ascii _ _ hch

theorem utf16Decode_ascii (l : List Nat) (h : ∀ x ∈ l, x < 128) :
    utf16Decode l = l := by
  induction l with
  | nil => rfl
  | cons u t ih =>
    have hu : u < 128 := h u (List.mem_cons_self u t)
    rw [utf16Decode.eq_def]
    simp only []
    rw [if_pos (Or.inl (by omega : u < 0xD800)),
      ih (fun x hx => h x (List.mem_cons_of_mem u hx))]

theorem utf8EncodeChar_ascii (c : Nat) (h : c < 128) :
    utf8EncodeChar c = [c] := by
  unfold utf8EncodeChar
  rw [if_pos h]

theorem utf8Encode_ascii (l : List Nat) (h : ∀ x ∈ l, x < 128) :
    utf8Encode l = l := by
  induction l with
  | nil => rfl
  | cons c t ih =>
    rw [utf8Encode, utf8EncodeChar_ascii c (h c (List.mem_cons_self c t)),
      ih (fun x hx => h x (List.mem_cons_of_mem c hx))]
    rfl

theorem wstring_to_string_ascii (l : List Nat) (h : ∀ x ∈ l, x < 128) :
    utils.wstring_to_string l = l := by
  unfold utils.wstring_to_string
  split
  · next heq => exact heq.symm
  · rw [utf16Decode_ascii l h, utf8Encode_ascii l h]

/-! ## Claim theorems -/

/-- Claim C1: a dispatch of `"getPlatformVersion"` whose `RtlGetVersion`
query returns status `0` answers with a single `Success` carrying the
UTF-8 string `"Windows <major>.<minor> Build <build>"` built from the
queried version record, which matches the pattern
`"<word> <int>.<int> Build <int>"`. -/
theorem getPlatformVersion_success_returns_version_string
    (env : OsEnv) (args : EncodableValue) (h : env.rtlStatus = 0) :
    HandleMethodCall env "getPlatformVersion" args =
      [MethodResult.Success (EncodableValue.str (versionWString env.osInfo))] ∧
    matchesVersionPattern (versionWString env.osInfo) := by
  constructor
  · unfold HandleMethodCall
    rw [if_pos rfl, if_pos h,
      wstring_to_string_ascii _ (versionWString_ascii env.osInfo)]
  · refine ⟨"Windows", env.osInfo.dwMajorVersion, env.osInfo.dwMinorVersion,
      env.osInfo.dwBuildNumber, by decide, by decide, ?_⟩
    unfold versionWString
    congr 1

/-- Witness for C1 at the concrete OS state `status 0`,
version `10.0.19041`. -/
theorem getPlatformVersion_success_witness :
    (OsEnv.mk 0 (OSVERSIONINFOEXW.mk 10 0 19041)).rtlStatus = 0 ∧
    (HandleMethodCall (OsEnv.mk 0 (OSVERSIONINFOEXW.mk 10 0 19041))
        "getPlatformVersion" EncodableValue.null =
      [MethodResult.Success (EncodableValue.str
        (versionWString (OSVERSIONINFOEXW.mk 10 0 19041)))] ∧
      matchesVersionPattern (versionWString (OSVERSIONINFOEXW.mk 10 0 19041))) :=
  ⟨rfl, getPlatformVersion_success_returns_version_string _ _ rfl⟩

/-- Claim C2: a dispatch of `"getPlatformVersion"` whose `RtlGetVersion`
query returns a non-zero status answers with the single error
`("VERSION_ERROR", "Failed to get Windows version.")` and sends no
`Success` value. -/
theorem getPlatformVersion_failure_returns_version_error
    (env : OsEnv) (args : EncodableValue) (h : env.rtlStatus ≠ 0) :
    HandleMethodCall env "getPlatformVersion" args =
      [MethodResult.Error "VERSION_ERROR" "Failed to get Windows version."] ∧
    ∀ v, MethodResult.Success v ∉ HandleMethodCall env "getPlatformVersion" args := by
  have hr : HandleMethodCall env "getPlatformVersion" args =
      [MethodResult.Error "VERSION_ERROR" "Failed to get Windows version."] := by
    unfold HandleMethodCall
    rw [if_pos rfl, if_neg h]
  refine ⟨hr, ?_⟩
  intro v hv
  rw [hr] at hv
  simp at hv

/-- Witness for C2 at the concrete OS state `status 0xC0000001`. -/
theorem getPlatformVersion_failure_witness :
    (OsEnv.mk 0xC0000001 (OSVERSIONINFOEXW.mk 0 0 0)).rtlStatus ≠ 0 ∧
    (HandleMethodCall (OsEnv.mk 0xC0000001 (OSVERSIONINFOEXW.mk 0 0 0))
        "getPlatformVersion" EncodableValue.null =
      [MethodResult.Error "VERSION_ERROR" "Failed to get Windows version."] ∧
      ∀ v, MethodResult.Success v ∉
        HandleMethodCall (OsEnv.mk 0xC0000001 (OSVERSIONINFOEXW.mk 0 0 0))
          "getPlatformVersion" EncodableValue.null) :=
  ⟨by decide,
    getPlatformVersion_failure_returns_version_error _ _ (by decide)⟩

/-- Claim C3: a dispatch of any method name other than
`"getPlatformVersion"` answers `NotImplemented`, whatever the
arguments and OS state. -/
theorem unknown_method_returns_notImplemented
    (env : OsEnv) (method : String) (args : EncodableValue)
    (h : method ≠ "getPlatformVersion") :
    HandleMethodCall env method args = [MethodResult.NotImplemented] := by
  unfold HandleMethodCall
  rw [if_neg h]

/-- Witness for C3 at the names `"ble#scan"`, `""` and
`"getplatformversion"` (case differs), each with concrete OS state and
arguments. -/
theorem unknown_method_witness :
    ("ble#scan" ≠ "getPlatformVersion" ∧
      HandleMethodCall (OsEnv.mk 0 (OSVERSIONINFOEXW.mk 10 0 19041))
        "ble#scan" EncodableValue.null = [MethodResult.NotImplemented]) ∧
    ("" ≠ "getPlatformVersion" ∧
      HandleMethodCall (OsEnv.mk 0 (OSVERSIONINFOEXW.mk 10 0 19041))
        "" (EncodableValue.str [0x61]) = [MethodResult.NotImplemented]) ∧
    ("getplatformversion" ≠ "getPlatformVersion" ∧
      HandleMethodCall (OsEnv.mk 1 (OSVERSIONINFOEXW.mk 6 3 9600))
        "getplatformversion" EncodableValue.null = [MethodResult.NotImplemented]) :=
  ⟨⟨by decide, unknown_method_returns_notImplemented _ _ _ (by decide)⟩,
    ⟨by decide, unknown_method_returns_notImplemented _ _ _ (by decide)⟩,
    ⟨by decide, unknown_method_returns_notImplemented _ _ _ (by decide)⟩⟩

/-- Claim C4: every dispatch, whatever the method name, arguments and OS
state, sends exactly one response on the `result` object. -/
theorem handleMethodCall_exactly_one_outcome
    (env : OsEnv) (method : String) (args : EncodableValue) :
    (HandleMethodCall env method args).length = 1 := by
  unfold HandleMethodCall
  split
  · split <;> rfl
  · rfl

/-- Claim C5: registration constructs exactly one plugin instance and one
channel, binds the channel to the name `"flutter_p2p_connection"`, and
the installed handler forwards every call unchanged to the plugin's
`HandleMethodCall`. -/
theorem registerWithRegistrar_builds_one_channel_and_forwards :
    RegisterWithRegistrar.plugins_constructed = 1 ∧
    RegisterWithRegistrar.channels_constructed = 1 ∧
    RegisterWithRegistrar.channel_name = "flutter_p2p_connection" ∧
    ∀ env call, RegisterWithRegistrar.handler env call =
      HandleMethodCall env call.method_name call.arguments :=
  ⟨rfl, rfl, rfl, fun _ _ => rfl⟩

/-- Claim C6: over any whole plugin lifetime — including one with no
dispatched calls — the apartment is initialized exactly once (at
construction) and uninitialized exactly once (at destruction), and no
dispatch performs any apartment event. -/
theorem apartment_init_uninit_symmetric (env : OsEnv) (calls : List MethodCall) :
    (lifetimeApartmentEvents env calls).count ApartmentEvent.init = 1 ∧
    (lifetimeApartmentEvents env calls).count ApartmentEvent.uninit = 1 ∧
    ∀ call, handleMethodCallApartmentEvents env call = [] := by
  have hmid : (calls.map (handleMethodCallApartmentEvents env)).flatten = [] := by
    rw [List.flatten_eq_nil_iff]
    intro l hl
    rcases List.mem_map.mp hl with ⟨c, _, rfl⟩
    rfl
  unfold lifetimeApartmentEvents
  rw [hmid]
  refine ⟨by decide, by decide, fun _ => rfl⟩

/-- Claim C7: any number of repeated `"getPlatformVersion"` dispatches
against a fixed OS state each return exactly the single-call result,
and the plugin state after the sequence is the initial state. -/
theorem getPlatformVersion_idempotent
    (env : OsEnv) (st : PluginState) (args : EncodableValue) (n : Nat) :
    (runCalls env st (List.replicate n (MethodCall.mk "getPlatformVersion" args))).1 =
      List.replicate n (HandleMethodCall env "getPlatformVersion" args) ∧
    (runCalls env st (List.replicate n (MethodCall.mk "getPlatformVersion" args))).2 =
      st := by
  induction n with
  | zero => exact ⟨rfl, rfl⟩
  | succ n ih =>
    constructor
    · rw [List.replicate_succ, runCalls]
      simp only [dispatchStep]
      rw [ih.1, List.replicate_succ]
    · rw [List.replicate_succ, runCalls]
      simp only [dispatchStep]
      exact ih.2

/-- Claim C8: the dispatcher never reads the call's arguments: two calls
with the same method name against the same OS state return identical
results whatever their arguments. -/
theorem handleMethodCall_ignores_arguments
    (env : OsEnv) (method : String) (args1 args2 : EncodableValue) :
    HandleMethodCall env method args1 = HandleMethodCall env method args2 := rfl

/-- Claim C10: both conversion helpers map empty input to empty output
through their early-return branch, making zero calls to the OS
conversion routines. -/
theorem empty_string_conversions :
    utils.string_to_wstring [] = [] ∧ utils.wstring_to_string [] = [] ∧
    utils.string_to_wstring_osCalls [] = 0 ∧
    utils.wstring_to_string_osCalls [] = 0 :=
  ⟨rfl, rfl, rfl, rfl⟩

/-! ## Round-trip lemmas for the UTF codecs -/

/-- One-step unfolding of `utf8Decode` on a cons cell (restates the
defining equation, which the equation compiler does not export for
this match shape). -/
theorem utf8Decode_cons (b1 : Nat) (t1 : List Nat) :
    utf8Decode (b1 :: t1) =
      (if b1 < 0x80 then b1 :: utf8Decode t1
      else if b1 < 0xC2 then 0xFFFD :: utf8Decode t1
      else if b1 < 0xE0 then
        match t1 with
        | [] => [0xFFFD]
        | b2 :: t2 =>
          if 0x80 ≤ b2 ∧ b2 < 0xC0 then
            ((b1 - 0xC0) * 64 + (b2 - 0x80)) :: utf8Decode t2
          else 0xFFFD :: utf8Decode (b2 :: t2)
      else if b1 < 0xF0 then
        match t1 with
        | b2 :: b3 :: t3 =>
          if (0x80 ≤ b2 ∧ b2 < 0xC0) ∧ (0x80 ≤ b3 ∧ b3 < 0xC0) then
            if 0x800 ≤ (b1 - 0xE0) * 4096 + (b2 - 0x80) * 64 + (b3 - 0x80) ∧
                ((b1 - 0xE0) * 4096 + (b2 - 0x80) * 64 + (b3 - 0x80) < 0xD800 ∨
                  0xE000 ≤ (b1 - 0xE0) * 4096 + (b2 - 0x80) * 64 + (b3 - 0x80)) then
              ((b1 - 0xE0) * 4096 + (b2 - 0x80) * 64 + (b3 - 0x80)) :: utf8Decode t3
            else 0xFFFD :: utf8Decode t3
          else 0xFFFD :: utf8Decode (b2 :: b3 :: t3)
        | _ => [0xFFFD]
      else if b1 < 0xF5 then
        match t1 with
        | b2 :: b3 :: b4 :: t4 =>
          if (0x80 ≤ b2 ∧ b2 < 0xC0) ∧ (0x80 ≤ b3 ∧ b3 < 0xC0) ∧
              (0x80 ≤ b4 ∧ b4 < 0xC0) then
            if 0x10000 ≤ (b1 - 0xF0) * 262144 + (b2 - 0x80) * 4096 +
                  (b3 - 0x80) * 64 + (b4 - 0x80) ∧
                (b1 - 0xF0) * 262144 + (b2 - 0x80) * 4096 +
                  (b3 - 0x80) * 64 + (b4 - 0x80) < 0x110000 then
              ((b1 - 0xF0) * 262144 + (b2 - 0x80) * 4096 +
                (b3 - 0x80) * 64 + (b4 - 0x80)) :: utf8Decode t4
            else 0xFFFD :: utf8Decode t4
          else 0xFFFD :: utf8Decode (b2 :: b3 :: b4 :: t4)
        | _ => [0xFFFD]
      else 0xFFFD :: utf8Decode t1) := by
  cases t1 with
  | nil => rfl
  | cons b2 t2 =>
    cases t2 with
    | nil => rfl
    | cons b3 t3 =>
      cases t3 with
      | nil => rfl
      | cons b4 t4 => rfl

set_option maxRecDepth 8192 in
theorem utf8Decode_encodeChar_append (c : Nat) (rest : List Nat)
    (hlt : c < 0x110000) (hsur : c < 0xD800 ∨ 0xE000 ≤ c) :
    utf8Decode (utf8EncodeChar c ++ rest) = c :: utf8Decode rest := by
  unfold utf8EncodeChar
  split
  · next h1 =>
    simp only [List.singleton_append]
    conv_lhs => rw [utf8Decode_cons]
    rw [if_pos h1]
  · next h1 =>
    split
    · next h2 =>
      simp only [List.cons_append, List.nil_append]
      conv_lhs => rw [utf8Decode_cons]
      simp only []
      repeat' split
      all_goals first
      | (exfalso; omega)
      | (simp only [List.cons.injEq, and_true]; omega)
    · next h2 =>
      split
      · next h3 =>
        simp only [List.cons_append, List.nil_append]
        conv_lhs => rw [utf8Decode_cons]
        simp only []
        repeat' split
        all_goals first
        | (exfalso; omega)
        | (congr 1; omega)
      · next h3 =>
        simp only [List.cons_append, List.nil_append]
        conv_lhs => rw [utf8Decode_cons]
        simp only []
        repeat' split
        all_goals first
        | (exfalso; omega)
        | (congr 1; omega)

/-- One-step unfolding of `utf16Decode` on a cons cell. -/
theorem utf16Decode_cons (u1 : Nat) (t1 : List Nat) :
    utf16Decode (u1 :: t1) =
      (if u1 < 0xD800 ∨ 0xE000 ≤ u1 then u1 :: utf16Decode t1
      else if u1 < 0xDC00 then
        match t1 with
        | [] => [0xFFFD]
        | u2 :: t2 =>
          if 0xDC00 ≤ u2 ∧ u2 < 0xE000 then
            (0x10000 + (u1 - 0xD800) * 0x400 + (u2 - 0xDC00)) :: utf16Decode t2
          else 0xFFFD :: utf16Decode (u2 :: t2)
      else 0xFFFD :: utf16Decode t1) := by
  cases t1 with
  | nil => rfl
  | cons u2 t2 => rfl

set_option maxRecDepth 8192 in
theorem utf16Decode_encodeChar_append (c : Nat) (rest : List Nat)
    (hlt : c < 0x110000) (hsur : c < 0xD800 ∨ 0xE000 ≤ c) :
    utf16Decode (utf16EncodeChar c ++ rest) = c :: utf16Decode rest := by
  unfold utf16EncodeChar
  split
  · next h1 =>
    simp only [List.singleton_append]
    conv_lhs => rw [utf16Decode_cons]
    rw [if_pos hsur]
  · next h1 =>
    simp only [List.cons_append, List.nil_append]
    conv_lhs => rw [utf16Decode_cons]
    simp only []
    repeat' split
    all_goals first
    | (exfalso; omega)
    | (simp only [List.cons.injEq, and_true]; omega)

theorem utf8Decode_utf8Encode (cs : List Nat) (h : ∀ c ∈ cs, IsScalar c) :
    utf8Decode (utf8Encode cs) = cs := by
  induction cs with
  | nil => rfl
  | cons c cs ih =>
    obtain ⟨hlt, hsur⟩ := h c (List.mem_cons_self c cs)
    rw [utf8Encode, utf8Decode_encodeChar_append c (utf8Encode cs) hlt hsur,
      ih (fun x hx => h x (List.mem_cons_of_mem c hx))]

theorem utf16Decode_utf16Encode (cs : List Nat) (h : ∀ c ∈ cs, IsScalar c) :
    utf16Decode (utf16Encode cs) = cs := by
  induction cs with
  | nil => rfl
  | cons c cs ih =>
    obtain ⟨hlt, hsur⟩ := h c (List.mem_cons_self c cs)
    rw [utf16Encode, utf16Decode_encodeChar_append c (utf16Encode cs) hlt hsur,
      ih (fun x hx => h x (List.mem_cons_of_mem c hx))]

theorem utf16EncodeChar_ne_nil (c : Nat) : utf16EncodeChar c ≠ [] := by
  unfold utf16EncodeChar
  split <;> simp

/-- Claim C9: converting any valid UTF-8 string to UTF-16 with
`string_to_wstring` and back with `wstring_to_string` returns the
original string. -/
theorem utf8_utf16_roundTrip (s : List Nat) (h : IsUtf8Encoding s) :
    utils.wstring_to_string (utils.string_to_wstring s) = s := by
  obtain ⟨cs, hsc, rfl⟩ := h
  unfold utils.string_to_wstring
  split
  · next heq => rw [heq]; rfl
  · next hne =>
    rw [utf8Decode_utf8Encode cs hsc]
    unfold utils.wstring_to_string
    split
    · next heq16 =>
      exfalso
      apply hne
      cases cs with
      | nil => rfl
      | cons c cs =>
        rw [utf16Encode] at heq16
        exact absurd (List.append_eq_nil.mp heq16).1 (utf16EncodeChar_ne_nil c)
    · rw [utf16Decode_utf16Encode cs hsc]

/-- Witness for C9 at the UTF-8 bytes of the text `"aé€😀"` (one
1-byte, one 2-byte, one 3-byte and one 4-byte sequence). -/
theorem utf8_utf16_roundTrip_witness :
    IsUtf8Encoding
      [0x61, 0xC3, 0xA9, 0xE2, 0x82, 0xAC, 0xF0, 0x9F, 0x98, 0x80] ∧
    utils.wstring_to_string (utils.string_to_wstring
        [0x61, 0xC3, 0xA9, 0xE2, 0x82, 0xAC, 0xF0, 0x9F, 0x98, 0x80]) =
      [0x61, 0xC3, 0xA9, 0xE2, 0x82, 0xAC, 0xF0, 0x9F, 0x98, 0x80] := by
  have h : IsUtf8Encoding
      [0x61, 0xC3, 0xA9, 0xE2, 0x82, 0xAC, 0xF0, 0x9F, 0x98, 0x80] :=
    ⟨[0x61, 0xE9, 0x20AC, 0x1F600], by decide, by decide⟩
  exact ⟨h, utf8_utf16_roundTrip _ h⟩

end FlutterP2p
